import Mathlib

/-
Verification of the AI practice pipeline and credit ledger of the
sozo-pitch-boost Flask backend (src/Flask-Backend/main.py).

The embedding models the pipeline stages as pure Lean functions over an
explicit world state (the stored credits of the user, the project record and the
error-log path of the Firebase realtime database that the handlers touch).
External collaborators (the generative model, the document store
fallibility, json.loads) are supplied through explicit oracle records: each
fallible external call is one oracle field, so every partial-failure path of
the Python code corresponds to one oracle valuation.

Python-specific behaviours reproduced here (string operations are modelled
structurally over character lists so that concrete runs evaluate):
  - str.strip()            -> pyStrip (ASCII whitespace)
  - str.lstrip(chars) and str.rstrip(chars) strip a CHARACTER SET, not a
    literal -> pyLstripChars / pyRstripChars
  - str.replace(c, empty) removes every occurrence -> pyRemoveChar
  - text[:1000]            -> pyTake
  - use_case.split(space)[0] -> pyFirstWord
  - dict.get(k, d) on a dict returns the stored value or the default;
    calling .get on a non-dict raises AttributeError -> JVal.dictGetD
    returning Except
  - truthiness of parsed JSON values -> JVal.truthy
  - math.ceil(x / 60) on an int-or-float duration -> Int.ceil on Rat
  - max(0, n) on ints -> max on Int
Exception objects are modelled by the Err inductive; str(e), used only in
the diagnostic record, is modelled by storing the Err value itself.
-/

namespace Sozo

/-- Single-quote character as a string (chr 39), used in the literals of the source. -/
def sq : String := String.singleton (Char.ofNat 39)

/-- Double-quote character as a string (chr 34). -/
def dq : String := String.singleton (Char.ofNat 34)

/-- Python s.strip(): drop leading and trailing whitespace. -/
def pyStrip (s : String) : String :=
  String.mk (((s.toList.dropWhile Char.isWhitespace).reverse.dropWhile
    Char.isWhitespace).reverse)

/-- Python s.replace(c, empty string): remove every occurrence of a character. -/
def pyRemoveChar (s : String) (c : Char) : String :=
  String.mk (s.toList.filter (fun x => !(x == c)))

/-- Python s.split(space)[0]: the characters before the first space. -/
def pyFirstWord (s : String) : String :=
  String.mk (s.toList.takeWhile (fun c => !(c == ' ')))

/-- Python s[:n]: the first n characters. -/
def pyTake (s : String) (n : Nat) : String := String.mk (s.toList.take n)

/-- Python s.lstrip(chars): drop leading characters belonging to the set. -/
def pyLstripChars (s : String) (cs : List Char) : String :=
  String.mk (s.toList.dropWhile (fun c => cs.contains c))

/-- Python s.rstrip(chars): drop trailing characters belonging to the set. -/
def pyRstripChars (s : String) (cs : List Char) : String :=
  String.mk ((s.toList.reverse.dropWhile (fun c => cs.contains c)).reverse)

/-- Characters of the lstrip argument in the source (a backtick, chr 96, and j, s, o, n). -/
def fenceChars : List Char := [Char.ofNat 96, 'j', 's', 'o', 'n']

/-- Models response.text.strip().lstrip(fence-json).rstrip(fence) from the source. -/
def stripFence (s : String) : String :=
  pyRstripChars (pyLstripChars (pyStrip s) fenceChars) [Char.ofNat 96]

/-- Parsed JSON values as produced by json.loads. -/
inductive JVal where
  | jnull
  | jbool (b : Bool)
  | jint (n : Int)
  | jstr (s : String)
  | jobj (fields : List (String × JVal))

/-- Python truthiness of a parsed JSON value. -/
def JVal.truthy : JVal → Bool
  | .jnull => false
  | .jbool b => b
  | .jint n => !(n == 0)
  | .jstr s => !(s == "")
  | .jobj fs => !fs.isEmpty

/-- Python value.get(k, d): dictionary lookup with default; AttributeError
(modelled as the error case) when the value is not a dict. -/
def JVal.dictGetD : JVal → String → JVal → Except Unit JVal
  | .jobj fs, k, d => .ok (((fs.find? (fun p => p.1 == k)).map Prod.snd).getD d)
  | _, _, _ => .error ()

/-- Python value.get(k): one-argument get, default None. -/
def JVal.pyGet (j : JVal) (k : String) : Except Unit JVal :=
  j.dictGetD k .jnull

mutual
/-- Python str() rendering of a parsed JSON value, as interpolated into f-strings. -/
def JVal.render : JVal → String
  | .jnull => "None"
  | .jbool b => if b then "True" else "False"
  | .jint n => toString n
  | .jstr s => s
  | .jobj fs => "\x7b" ++ JVal.renderFields fs ++ "\x7d"

/-- Renders the fields of a dict, comma separated, repr-quoting the keys. -/
def JVal.renderFields : List (String × JVal) → String
  | [] => ""
  | (k, v) :: rest =>
      sq ++ k ++ sq ++ ": " ++ JVal.renderRepr v ++
        (if rest.isEmpty then "" else ", ") ++ JVal.renderFields rest

/-- Python repr-style rendering used for values nested inside a dict. -/
def JVal.renderRepr : JVal → String
  | .jstr s => sq ++ s ++ sq
  | v => JVal.render v
end

/-- Session record written under practiceSessions by the analysis stage. -/
structure Session where
  sessionId : String
  createdAt : String
  durationSeconds : ℚ
  transcript : String
  feedback : JVal

/-- Project record written by create_project. -/
structure Project where
  projectId : String
  userId : String
  title : JVal
  detectedUseCase : String
  originalBriefingText : String
  key_points : JVal
  short_description : JVal
  createdAt : String
  practiceSessions : List (String × Session)

/-- Exceptions that can arise inside the transcript-analysis stage. -/
inductive Err where
  | projectNotFound
  | projGetFail
  | modelFail
  | parseFail
  | sessionSetFail
  | userGetFail
  | userUpdateFail
  | errLogFail
deriving DecidableEq

/-- Diagnostic record pushed under the project error-log path on failure;
the source stores str(e) and the transcript. -/
structure ErrRec where
  error : Err
  transcript : String

/-- The slice of the durable store touched by the pipeline calls of one
user: the credits of the user, the project slot, and the error-log path
(the sessions child of the project node, distinct from practiceSessions). -/
structure World where
  credits : Int
  project : Option Project
  errLog : List (String × ErrRec)

/-- Context extraction (summarize_and_extract_context_with_gemini).
The model call outcome and json.loads are supplied externally. Total:
this stage never raises; every failure produces the deterministic fallback. -/
def summarize_and_extract_context_with_gemini (text : String)
    (modelResp : Except Unit String) (jsonLoads : String → Option JVal) : JVal :=
  match modelResp with
  | .error _ =>
      .jobj [("short_description", .jstr "User-provided project document."),
             ("key_points", .jstr (pyTake text 1000))]
  | .ok raw =>
      match jsonLoads (stripFence raw) with
      | none =>
          .jobj [("short_description", .jstr "User-provided project document."),
                 ("key_points", .jstr (pyTake text 1000))]
      | some data => data

/-- The closed set of scenario categories of the classifier. -/
def validCategories : List String := ["Job Interview", "Investor Pitch", "Academic Presentation"]

/-- Processing of the raw response text of the classifier:
response.text.strip() followed by removing every quote character. -/
def processCategory (raw : String) : String :=
  pyRemoveChar (pyRemoveChar (pyStrip raw) (Char.ofNat 39)) (Char.ofNat 34)

/-- Use-case classifier (detect_use_case_with_gemini): a transport/model
failure is re-raised; a returned response is processed and defaulted. -/
def detect_use_case_with_gemini (modelResp : Except Unit String) : Except Unit String :=
  match modelResp with
  | .error e => .error e
  | .ok raw =>
      let category := processCategory raw
      if validCategories.contains category then .ok category
      else .ok "Job Interview"

/-- Cost of a transcript analysis: math.ceil(duration_seconds / 60) * 3. -/
def analysisCost (d : ℚ) : Int := Int.ceil (d / 60) * 3

/-- Value returned by a successful transcript analysis. -/
structure AnalyzeOk where
  cost : Int
  remaining : Int
  sessionId : String

/-- Outcomes of the external calls made by the transcript-analysis stage,
in program order; the model prompt (use case, key points, transcript) is
passed to the external model, whose response the oracle supplies. -/
structure AnalyzeOracle where
  projGetFails : Bool
  modelResp : Except Unit String
  jsonLoads : String → Option JVal
  newSessionId : String
  nowIso : String
  sessionSetFails : Bool
  userGetFails : Bool
  userUpdateFails : Bool
  errLogKey : String
  errLogSetFails : Bool

/-- Body of the try block of analyze_transcript_with_gemini: fetch project,
call the model, parse, write the session record, then re-read the balance
and write max(0, current - cost). -/
def analyze_transcript_inner (w : World) (o : AnalyzeOracle)
    (transcript : String) (d : ℚ) : Except Err AnalyzeOk × World :=
  if o.projGetFails then (.error .projGetFail, w)
  else
    match w.project with
    | none => (.error .projectNotFound, w)
    | some proj =>
      match o.modelResp with
      | .error _ => (.error .modelFail, w)
      | .ok raw =>
        match o.jsonLoads (stripFence raw) with
        | none => (.error .parseFail, w)
        | some feedback_data =>
          if o.sessionSetFails then (.error .sessionSetFail, w)
          else
            let sess : Session :=
              { sessionId := o.newSessionId, createdAt := o.nowIso,
                durationSeconds := d, transcript := transcript,
                feedback := feedback_data }
            let w1 : World :=
              { w with project := some { proj with
                  practiceSessions := proj.practiceSessions ++ [(o.newSessionId, sess)] } }
            if o.userGetFails then (.error .userGetFail, w1)
            else
              let current_credits := w1.credits
              let cost := analysisCost d
              let new_credits := max 0 (current_credits - cost)
              if o.userUpdateFails then (.error .userUpdateFail, w1)
              else (.ok { cost := cost, remaining := new_credits,
                          sessionId := o.newSessionId },
                    { w1 with credits := new_credits })

/-- analyze_transcript_with_gemini: the try body plus the except block,
which pushes a diagnostic record under the project error-log path and
re-raises; the diagnostic write itself is unguarded, so its own failure
propagates instead. -/
def analyze_transcript_with_gemini (w : World) (o : AnalyzeOracle)
    (transcript : String) (d : ℚ) : Except Err AnalyzeOk × World :=
  match analyze_transcript_inner w o transcript d with
  | (.ok r, w1) => (.ok r, w1)
  | (.error e, w1) =>
      if o.errLogSetFails then (.error .errLogFail, w1)
      else (.error e,
            { w1 with errLog := w1.errLog ++ [(o.errLogKey, { error := e, transcript := transcript })] })

/-- Base scenario briefing string built by generate_agent_briefing. In created
projects the detectedUseCase and key_points keys are always present, so the
dict.get defaults of the source are never taken. -/
def baseBriefing (p : Project) : String :=
  "This is a mock " ++ sq ++ p.detectedUseCase ++ sq ++ ". The user" ++ sq ++
    "s context is based on a document with these key points: " ++ sq ++
    p.key_points.render ++ sq ++
    ". Your goal is to act as a realistic " ++
    pyFirstWord p.detectedUseCase ++
    " interviewer/panelist and ask relevant questions."

/-- Note appended when the project has no practice sessions. -/
def firstSessionNote : String :=
  " This is the user" ++ sq ++
    "s first practice session for this project. Start with some introductory questions."

/-- Note appended when sessions exist but none has usable feedback. -/
def noFeedbackNote : String :=
  " The user has practiced before, but their feedback is unavailable. Conduct a standard session."

/-- One entry of past_feedback_summary: the four dict.get calls on a
feedback value of a session; raises (error) when feedback is not a dict. -/
def feedbackEntry (fb : JVal) : Except Unit JVal := do
  let improvements ← fb.pyGet "qualitativeImprovements"
  let comm ← fb.pyGet "communicationScore"
  let cont ← fb.pyGet "contentMasteryScore"
  let res ← fb.pyGet "resilienceScore"
  return .jobj [("improvements", improvements),
                ("scores", .jobj [("communication", comm), ("content", cont),
                                  ("resilience", res)])]

/-- The collection loop over sessions: entries for sessions with truthy
feedback, aborting (caught by the enclosing except) on a non-dict feedback. -/
def collectFeedback : List (String × Session) → Except Unit (List JVal)
  | [] => .ok []
  | (_, s) :: rest =>
      if s.feedback.truthy then do
        let entry ← feedbackEntry s.feedback
        let tail ← collectFeedback rest
        return entry :: tail
      else collectFeedback rest

/-- Result of generate_agent_briefing, instrumented with whether the
directive model call was issued. -/
structure BriefingOut where
  result : Except Unit String
  modelCalled : Bool

/-- generate_agent_briefing: not-found on a missing project; base briefing
plus first-session note when no sessions exist (no model call); unavailable
note when no session has usable feedback; otherwise one directive model
call whose failure is caught, returning the base briefing unchanged. -/
def generate_agent_briefing (project_data : Option Project)
    (directiveResp : Except Unit String) : BriefingOut :=
  match project_data with
  | none => { result := .error (), modelCalled := false }
  | some p =>
      let base_briefing := baseBriefing p
      if p.practiceSessions.isEmpty then
        { result := .ok (base_briefing ++ firstSessionNote), modelCalled := false }
      else
        match collectFeedback p.practiceSessions with
        | .error _ => { result := .ok base_briefing, modelCalled := false }
        | .ok past_feedback_summary =>
          if past_feedback_summary.isEmpty then
            { result := .ok (base_briefing ++ noFeedbackNote), modelCalled := false }
          else
            match directiveResp with
            | .error _ => { result := .ok base_briefing, modelCalled := true }
            | .ok txt => { result := .ok (base_briefing ++ " " ++ pyStrip txt), modelCalled := true }

/-- Failure modes of the create_project handler. -/
inductive CreateErr where
  | insufficientCredits
  | inputError
  | classifierFail
  | contextAttrError
  | projSetFail
  | userUpdateFail
deriving DecidableEq

/-- Outcomes of the external calls made by create_project, in program order. -/
structure CreateOracle where
  extractText : Except Unit String
  ctxResp : Except Unit String
  ctxJsonLoads : String → Option JVal
  ucResp : Except Unit String
  newProjectId : String
  nowIso : String
  projSetFails : Bool
  userUpdateFails : Bool

/-- create_project: credit pre-check on the balance read before the try
block, text extraction, context extraction, classification, the three
dict.get calls building the record, project write, then the debit computed
from the pre-read balance (no clamp; the pre-check keeps it nonnegative
non-concurrently). -/
def create_project (w : World) (o : CreateOracle) (uid : String) :
    Except CreateErr Project × World :=
  if w.credits < 1 then (.error .insufficientCredits, w)
  else
    match o.extractText with
    | .error _ => (.error .inputError, w)
    | .ok briefing_text =>
      let context_data :=
        summarize_and_extract_context_with_gemini briefing_text o.ctxResp o.ctxJsonLoads
      match detect_use_case_with_gemini o.ucResp with
      | .error _ => (.error .classifierFail, w)
      | .ok detected_use_case =>
        match context_data.dictGetD "short_description" (.jstr "New Project") with
        | .error _ => (.error .contextAttrError, w)
        | .ok title =>
          match context_data.dictGetD "key_points" .jnull with
          | .error _ => (.error .contextAttrError, w)
          | .ok key_points =>
            match context_data.dictGetD "short_description" .jnull with
            | .error _ => (.error .contextAttrError, w)
            | .ok short_description =>
              let project_data : Project :=
                { projectId := o.newProjectId, userId := uid, title := title,
                  detectedUseCase := detected_use_case,
                  originalBriefingText := briefing_text,
                  key_points := key_points, short_description := short_description,
                  createdAt := o.nowIso, practiceSessions := [] }
              if o.projSetFails then (.error .projSetFail, w)
              else
                let w1 : World := { w with project := some project_data }
                if o.userUpdateFails then (.error .userUpdateFail, w1)
                else (.ok project_data, { w1 with credits := w.credits - 1 })

/-- admin_update_credits balance computation: the stored value becomes
user_data.get(credits, 0) + int(add_credits), with no clamp. -/
def admin_update_credits (stored_credits : Int) (add_credits : Int) : Int :=
  stored_credits + add_credits

/-- Request validation of the end_session_and_analyze handler: rejects only
a non-numeric durationSeconds (modelled as none) or a falsy transcript. -/
def end_session_request_valid (durationSeconds : Option ℚ) (transcript : String) : Bool :=
  durationSeconds.isSome && !(transcript == "")

/-- A sample stored project used by concrete witnesses. -/
def sampleProject : Project :=
  { projectId := "p1", userId := "u1", title := .jstr "A pitch.",
    detectedUseCase := "Investor Pitch", originalBriefingText := "briefing text",
    key_points := .jstr "kp", short_description := .jstr "A pitch.",
    createdAt := "t0", practiceSessions := [] }

/-- A sample world with the project present and 30 credits. -/
def sampleWorld : World := { credits := 30, project := some sampleProject, errLog := [] }

/-- A sample world with no project stored and 30 credits. -/
def emptyWorld : World := { credits := 30, project := none, errLog := [] }

/-- A sample parsed feedback object. -/
def sampleFeedback : JVal :=
  .jobj [("communicationScore", .jint 80), ("contentMasteryScore", .jint 75),
         ("resilienceScore", .jint 60), ("qualitativeImprovements", .jstr "Be concise.")]

/-- An analysis oracle on which every external call succeeds. -/
def okAnalyzeOracle : AnalyzeOracle :=
  { projGetFails := false, modelResp := .ok "resp",
    jsonLoads := fun _ => some sampleFeedback,
    newSessionId := "s1", nowIso := "t1",
    sessionSetFails := false, userGetFails := false, userUpdateFails := false,
    errLogKey := "k1", errLogSetFails := false }

/-- A creation oracle on which every external call succeeds. -/
def okCreateOracle : CreateOracle :=
  { extractText := .ok "briefing text", ctxResp := .ok "resp",
    ctxJsonLoads := fun _ =>
      some (.jobj [("short_description", .jstr "A pitch."), ("key_points", .jstr "kp")]),
    ucResp := .ok "Investor Pitch", newProjectId := "p1", nowIso := "t0",
    projSetFails := false, userUpdateFails := false }

/-- A sample session carrying the sample feedback. -/
def fbSession : Session :=
  { sessionId := "s0", createdAt := "t", durationSeconds := 60,
    transcript := "tr", feedback := sampleFeedback }

/-- The sample project with one practice session holding feedback. -/
def fbProject : Project := { sampleProject with practiceSessions := [("s0", fbSession)] }

/-- The project stored by okCreateOracle when the classifier answers with an
invalid category. -/
def bananaProject : Project :=
  { projectId := "p1", userId := "u1", title := .jstr "A pitch.",
    detectedUseCase := "Job Interview", originalBriefingText := "briefing text",
    key_points := .jstr "kp", short_description := .jstr "A pitch.",
    createdAt := "t0", practiceSessions := [] }

/-- Evaluation rule for the billing formula: with ceil(d/60) bracketed by z,
the cost is z * 3. -/
theorem analysisCost_eval (d : ℚ) (z : ℤ) (h1 : (z : ℚ) - 1 < d / 60)
    (h2 : d / 60 ≤ (z : ℚ)) : analysisCost d = z * 3 := by
  rw [analysisCost, Int.ceil_eq_iff.mpr ⟨h1, h2⟩]

/-- One second is billed as one minute: 3 credits. -/
theorem analysisCost_one : analysisCost 1 = 3 := by
  have h := analysisCost_eval 1 1 (by norm_num) (by norm_num); omega

/-- Sixty seconds are billed as one minute: 3 credits. -/
theorem analysisCost_sixty : analysisCost 60 = 3 := by
  have h := analysisCost_eval 60 1 (by norm_num) (by norm_num); omega

/-- Sixty-one seconds are billed as two minutes: 6 credits. -/
theorem analysisCost_sixtyone : analysisCost 61 = 6 := by
  have h := analysisCost_eval 61 2 (by norm_num) (by norm_num); omega

/-- A zero duration is billed zero credits. -/
theorem analysisCost_zero : analysisCost 0 = 0 := by
  have h := analysisCost_eval 0 0 (by norm_num) (by norm_num); omega

/-- Minus sixty-one seconds yield a negative cost of -3. -/
theorem analysisCost_neg_sixtyone : analysisCost (-61) = -3 := by
  have h := analysisCost_eval (-61) (-1) (by norm_num) (by norm_num); omega

/-- A 125-second session is billed as three minutes: 9 credits. -/
theorem analysisCost_125 : analysisCost 125 = 9 := by
  have h := analysisCost_eval 125 3 (by norm_num) (by norm_num); omega

/-- Any positive duration is billed at least one minute, so at least 3 credits. -/
theorem analysisCost_min (d : ℚ) (hd : 0 < d) : 3 ≤ analysisCost d := by
  unfold analysisCost
  have h0 : (0 : ℚ) < d / 60 := by positivity
  have h1 : 0 < Int.ceil (d / 60) := Int.ceil_pos.mpr h0
  omega

/-- A negative duration has a nonpositive cost. -/
theorem analysisCost_nonpos (d : ℚ) (hd : d < 0) : analysisCost d ≤ 0 := by
  unfold analysisCost
  have h0 : d / 60 ≤ (0 : ℚ) := by
    apply div_nonpos_of_nonpos_of_nonneg (le_of_lt hd)
    norm_num
  have h1 : Int.ceil (d / 60) ≤ 0 := by
    rw [show (0 : ℤ) = ((0 : ℤ) : ℤ) from rfl]
    exact Int.ceil_le.mpr (by exact_mod_cast h0)
  omega

/-- A failure of the analysis try body raised before the session write (that
is, other than during the credit read/update) leaves the world untouched. -/
theorem inner_error_world (w : World) (o : AnalyzeOracle) (t : String) (d : ℚ) (e : Err)
    (he1 : e ≠ .userGetFail) (he2 : e ≠ .userUpdateFail)
    (h : (analyze_transcript_inner w o t d).1 = .error e) :
    analyze_transcript_inner w o t d = (.error e, w) := by
  unfold analyze_transcript_inner at h ⊢
  repeat' split at h
  all_goals simp_all

/-- The except block does not touch the credits written by the try body. -/
theorem wrapper_credits (w : World) (o : AnalyzeOracle) (t : String) (d : ℚ) :
    (analyze_transcript_with_gemini w o t d).2.credits =
      (analyze_transcript_inner w o t d).2.credits := by
  unfold analyze_transcript_with_gemini
  rcases hin : analyze_transcript_inner w o t d with ⟨r, w1⟩
  cases r with
  | ok v => rfl
  | error e => by_cases hl : o.errLogSetFails = true <;> simp [hl]

/-- Credits after the try body are either untouched or the clamped debit. -/
theorem inner_credits (w : World) (o : AnalyzeOracle) (t : String) (d : ℚ) :
    (analyze_transcript_inner w o t d).2.credits = w.credits ∨
    (analyze_transcript_inner w o t d).2.credits = max 0 (w.credits - analysisCost d) := by
  unfold analyze_transcript_inner
  repeat' split
  all_goals simp

/-- Claim C1 (amended): on an existing project, with every external call
succeeding, transcript analysis returns the cost ceil(d/60)*3, the new
balance max(0, before - cost) and the fresh session id, writes that balance
and the session record; the cost is at least 3 for every positive duration
(d = 0 is billed 0), with ceil examples at 1, 60 and 61 seconds. -/
theorem C1_analysis_debit (w : World) (o : AnalyzeOracle) (proj : Project)
    (t raw : String) (fb : JVal) (d : ℚ)
    (hproj : w.project = some proj)
    (hpg : o.projGetFails = false)
    (hm : o.modelResp = .ok raw)
    (hj : o.jsonLoads (stripFence raw) = some fb)
    (hss : o.sessionSetFails = false)
    (hug : o.userGetFails = false)
    (huu : o.userUpdateFails = false)
    (hd : 0 < d) :
    analyze_transcript_with_gemini w o t d =
      (.ok { cost := analysisCost d, remaining := max 0 (w.credits - analysisCost d),
             sessionId := o.newSessionId },
       { w with
          project := some { proj with practiceSessions := proj.practiceSessions ++
            [(o.newSessionId,
              { sessionId := o.newSessionId, createdAt := o.nowIso,
                durationSeconds := d, transcript := t, feedback := fb })] },
          credits := max 0 (w.credits - analysisCost d) }) ∧
    3 ≤ analysisCost d ∧
    analysisCost 1 = 3 ∧ analysisCost 60 = 3 ∧ analysisCost 61 = 6 := by
  refine ⟨?_, analysisCost_min d hd, analysisCost_one, analysisCost_sixty,
    analysisCost_sixtyone⟩
  unfold analyze_transcript_with_gemini analyze_transcript_inner
  simp [hproj, hpg, hm, hj, hss, hug, huu]

/-- Claim C1 counterexample: duration 0 passes the handler validation, is
a non-negative duration, and is billed 0 credits, not at least 3: the full
stage succeeds returning cost 0 and an unchanged balance of 30. -/
theorem C1_cost_zero_cex :
    analysisCost 0 = 0 ∧
    analyze_transcript_with_gemini sampleWorld okAnalyzeOracle "hello" 0 =
      (.ok { cost := 0, remaining := 30, sessionId := "s1" },
       { sampleWorld with
          project := some { sampleProject with practiceSessions :=
            [("s1", { sessionId := "s1", createdAt := "t1", durationSeconds := 0,
                      transcript := "hello", feedback := sampleFeedback })] },
          credits := 30 }) := by
  refine ⟨analysisCost_zero, ?_⟩
  unfold analyze_transcript_with_gemini analyze_transcript_inner
  norm_num [sampleWorld, sampleProject, okAnalyzeOracle, analysisCost_zero]

/-- Witness for C1 at duration 125 on the sample world: cost 9, balance 21. -/
theorem C1_analysis_debit_witness :
    analyze_transcript_with_gemini sampleWorld okAnalyzeOracle "tr" 125 =
      (.ok { cost := 9, remaining := 21, sessionId := "s1" },
       { sampleWorld with
          project := some { sampleProject with practiceSessions :=
            [("s1", { sessionId := "s1", createdAt := "t1", durationSeconds := 125,
                      transcript := "tr", feedback := sampleFeedback })] },
          credits := 21 }) ∧
    3 ≤ analysisCost 125 := by
  have h := C1_analysis_debit sampleWorld okAnalyzeOracle sampleProject "tr" "resp"
    sampleFeedback 125 rfl rfl rfl rfl rfl rfl rfl (by norm_num)
  refine ⟨?_, h.2.1⟩
  have h1 := h.1
  rw [analysisCost_125] at h1
  exact h1

/-- Claim C2 (amended): for every transcript-analysis failure raised before
the session-record write — project fetch failure, project not found, model
failure, unparseable scoring output, or failure of the session write itself
— the balance is unchanged, no session record is created, a diagnostic
record holding the transcript and the error is appended under the separate
error-log path (when that advisory write itself succeeds), and the failure
is re-raised; a store failure during the later credit read or update leaves
the already-written session record in place (balance still unchanged). -/
theorem C2_failure_leaves_world (w : World) (o : AnalyzeOracle) (t : String) (d : ℚ)
    (e : Err)
    (h : (analyze_transcript_inner w o t d).1 = .error e)
    (he1 : e ≠ .userGetFail) (he2 : e ≠ .userUpdateFail)
    (hlog : o.errLogSetFails = false) :
    analyze_transcript_with_gemini w o t d =
      (.error e,
       { w with errLog := w.errLog ++ [(o.errLogKey, { error := e, transcript := t })] }) := by
  have hin := inner_error_world w o t d e he1 he2 h
  unfold analyze_transcript_with_gemini
  rw [hin]
  simp [hlog]

/-- Witness for C2 on a model-call failure: the stage re-raises the model
error, leaves the credits and the project untouched and appends the
diagnostic record. -/
theorem C2_failure_leaves_world_witness :
    analyze_transcript_with_gemini sampleWorld
        { okAnalyzeOracle with modelResp := .error () } "tr" 5 =
      (.error .modelFail,
       { sampleWorld with errLog :=
          sampleWorld.errLog ++ [("k1", { error := .modelFail, transcript := "tr" })] }) :=
  C2_failure_leaves_world sampleWorld { okAnalyzeOracle with modelResp := .error () }
    "tr" 5 .modelFail rfl (by decide) (by decide) rfl

/-- Claim C2 counterexample: when every step succeeds up to the session
write but the store fails during the credit update, the analysis fails yet
a session record HAS been created under practiceSessions (balance is
unchanged), contradicting that no session record is created on failure. -/
theorem C2_session_persists_cex :
    (analyze_transcript_with_gemini sampleWorld
        { okAnalyzeOracle with userUpdateFails := true } "tr" 125).1 =
      .error .userUpdateFail ∧
    (analyze_transcript_with_gemini sampleWorld
        { okAnalyzeOracle with userUpdateFails := true } "tr" 125).2.project =
      some { sampleProject with practiceSessions :=
        [("s1", { sessionId := "s1", createdAt := "t1", durationSeconds := 125,
                  transcript := "tr", feedback := sampleFeedback })] } ∧
    (analyze_transcript_with_gemini sampleWorld
        { okAnalyzeOracle with userUpdateFails := true } "tr" 125).2.credits = 30 :=
  ⟨rfl, rfl, rfl⟩

/-- Claim C3 (amended): the transcript-analysis debit clamps at zero — after
any analysis call the stored credits are either unchanged or equal to the
nonnegative max(0, before - cost) — but the admin credit adjustment adds its
delta with no clamp, so an adjustment below the negated balance drives the
stored credits negative and credits >= 0 is not an invariant preserved by
every operation. -/
theorem C3_clamp_only_in_analysis (w : World) (o : AnalyzeOracle) (t : String)
    (d : ℚ) (c a : Int) (ha : c + a < 0) :
    ((analyze_transcript_with_gemini w o t d).2.credits = w.credits ∨
     (analyze_transcript_with_gemini w o t d).2.credits = max 0 (w.credits - analysisCost d)) ∧
    0 ≤ max 0 (w.credits - analysisCost d) ∧
    admin_update_credits c a < 0 := by
  refine ⟨?_, le_max_left 0 _, ?_⟩
  · rw [wrapper_credits w o t d]
    exact inner_credits w o t d
  · unfold admin_update_credits
    omega

/-- Witness for C3: on the sample world the analysis leaves 30 or writes the
clamped balance, while the admin adjustment of -40 on a balance of 30 is
negative. -/
theorem C3_clamp_only_in_analysis_witness :
    ((analyze_transcript_with_gemini sampleWorld okAnalyzeOracle "tr" 125).2.credits =
        sampleWorld.credits ∨
     (analyze_transcript_with_gemini sampleWorld okAnalyzeOracle "tr" 125).2.credits =
        max 0 (sampleWorld.credits - analysisCost 125)) ∧
    0 ≤ max 0 (sampleWorld.credits - analysisCost 125) ∧
    admin_update_credits 30 (-40) < 0 :=
  C3_clamp_only_in_analysis sampleWorld okAnalyzeOracle "tr" 125 30 (-40) (by norm_num)

/-- Claim C3 counterexample: an admin adjustment of -10 on a stored balance
of 5 writes back -5, a negative stored credits value — the balance written
back is not clamped for this ledger operation. -/
theorem C3_negative_balance_cex :
    admin_update_credits 5 (-10) = -5 ∧ admin_update_credits 5 (-10) < 0 := by
  exact ⟨rfl, by decide⟩

/-- Claim C4 (amended): starting from a world without the project record,
project creation either succeeds with a persisted project and a credit
delta of exactly -1, or fails with no project and unchanged credits —
except when the store fails during the credit update after the project
write, in which case the project record persists while the credits are
unchanged (a project without its debit). -/
theorem C4_create_project_atomicity (w : World) (o : CreateOracle) (uid : String)
    (hnone : w.project = none) :
    ((create_project w o uid).1.isOk = true ∧
     (create_project w o uid).2.project.isSome = true ∧
     (create_project w o uid).2.credits = w.credits - 1) ∨
    ((create_project w o uid).1 = .error CreateErr.userUpdateFail ∧
     (create_project w o uid).2.project.isSome = true ∧
     (create_project w o uid).2.credits = w.credits) ∨
    ((create_project w o uid).1.isOk = false ∧
     (create_project w o uid).2 = w) := by
  by_cases hc : w.credits < 1
  · right; right; simp [create_project, hc, Except.isOk, Except.toBool]
  · rcases hex : o.extractText with u | briefing
    · right; right; simp [create_project, hc, hex, Except.isOk, Except.toBool]
    · rcases hdet : detect_use_case_with_gemini o.ucResp with u | duc
      · right; right; simp [create_project, hc, hex, hdet, Except.isOk, Except.toBool]
      · rcases hctx : summarize_and_extract_context_with_gemini briefing o.ctxResp
            o.ctxJsonLoads with _ | b | n | s | fields
        · right; right
          simp [create_project, hc, hex, hdet, hctx, JVal.dictGetD, Except.isOk,
            Except.toBool]
        · right; right
          simp [create_project, hc, hex, hdet, hctx, JVal.dictGetD, Except.isOk,
            Except.toBool]
        · right; right
          simp [create_project, hc, hex, hdet, hctx, JVal.dictGetD, Except.isOk,
            Except.toBool]
        · right; right
          simp [create_project, hc, hex, hdet, hctx, JVal.dictGetD, Except.isOk,
            Except.toBool]
        · by_cases hps : o.projSetFails = true
          · right; right
            simp [create_project, hc, hex, hdet, hctx, hps, JVal.dictGetD, Except.isOk,
              Except.toBool]
          · by_cases huu : o.userUpdateFails = true
            · right; left
              simp [create_project, hc, hex, hdet, hctx, hps, huu, JVal.dictGetD,
                Except.isOk, Except.toBool]
            · left
              simp [create_project, hc, hex, hdet, hctx, hps, huu, JVal.dictGetD,
                Except.isOk, Except.toBool]

/-- Witness for C4 on the empty world with the all-success oracle. -/
theorem C4_create_project_atomicity_witness :
    ((create_project emptyWorld okCreateOracle "u1").1.isOk = true ∧
     (create_project emptyWorld okCreateOracle "u1").2.project.isSome = true ∧
     (create_project emptyWorld okCreateOracle "u1").2.credits = emptyWorld.credits - 1) ∨
    ((create_project emptyWorld okCreateOracle "u1").1 = .error CreateErr.userUpdateFail ∧
     (create_project emptyWorld okCreateOracle "u1").2.project.isSome = true ∧
     (create_project emptyWorld okCreateOracle "u1").2.credits = emptyWorld.credits) ∨
    ((create_project emptyWorld okCreateOracle "u1").1.isOk = false ∧
     (create_project emptyWorld okCreateOracle "u1").2 = emptyWorld) :=
  C4_create_project_atomicity emptyWorld okCreateOracle "u1" rfl

/-- Claim C4 counterexample: with every step succeeding except the credit
update, creation fails yet the fully built project record has been
persisted while the credits are unchanged at 30 — a project without the
debit. -/
theorem C4_project_without_debit_cex :
    (create_project emptyWorld { okCreateOracle with userUpdateFails := true } "u1").1 =
      .error CreateErr.userUpdateFail ∧
    (create_project emptyWorld { okCreateOracle with userUpdateFails := true } "u1").2.project.isSome
      = true ∧
    (create_project emptyWorld { okCreateOracle with userUpdateFails := true } "u1").2.credits = 30 :=
  ⟨rfl, rfl, rfl⟩

/-- Claim C5 (confirmed): for every successfully created project whose
classifier model call returned the string raw, the stored detectedUseCase
is the processed form of raw when that lies in the closed category set and the
default Job Interview otherwise; in both cases the stored value belongs to
the closed set. -/
theorem C5_use_case_closed_set (w : World) (o : CreateOracle) (uid raw : String)
    (p : Project)
    (hraw : o.ucResp = .ok raw)
    (hp : (create_project w o uid).1 = .ok p) :
    p.detectedUseCase =
      (if processCategory raw ∈ validCategories then processCategory raw
       else "Job Interview") ∧
    p.detectedUseCase ∈ validCategories := by
  have hdet : detect_use_case_with_gemini o.ucResp =
      .ok (if processCategory raw ∈ validCategories then processCategory raw
           else "Job Interview") := by
    rw [hraw]
    unfold detect_use_case_with_gemini
    by_cases hcat : processCategory raw ∈ validCategories <;> simp [hcat]
  have hmem : (if processCategory raw ∈ validCategories then processCategory raw
       else "Job Interview") ∈ validCategories := by
    by_cases hcat : processCategory raw ∈ validCategories
    · simp [hcat]
    · rw [if_neg hcat]; decide
  by_cases hc : w.credits < 1
  · simp [create_project, hc] at hp
  · rcases hex : o.extractText with u | briefing
    · simp [create_project, hc, hex] at hp
    · rcases hctx : summarize_and_extract_context_with_gemini briefing o.ctxResp
          o.ctxJsonLoads with _ | b | n | s | fields
      · simp [create_project, hc, hex, hdet, hctx, JVal.dictGetD] at hp
      · simp [create_project, hc, hex, hdet, hctx, JVal.dictGetD] at hp
      · simp [create_project, hc, hex, hdet, hctx, JVal.dictGetD] at hp
      · simp [create_project, hc, hex, hdet, hctx, JVal.dictGetD] at hp
      · by_cases hps : o.projSetFails = true
        · simp [create_project, hc, hex, hdet, hctx, hps, JVal.dictGetD] at hp
        · by_cases huu : o.userUpdateFails = true
          · simp [create_project, hc, hex, hdet, hctx, hps, huu, JVal.dictGetD] at hp
          · simp [create_project, hc, hex, hdet, hctx, hps, huu, JVal.dictGetD] at hp
            rw [← hp]
            exact ⟨rfl, hmem⟩

/-- Witness for C5: the sample creation flow with the classifier answering
the invalid string a banana stores Job Interview, a member of the set. -/
theorem C5_use_case_closed_set_witness :
    bananaProject.detectedUseCase =
      (if processCategory "a banana" ∈ validCategories
       then processCategory "a banana" else "Job Interview") ∧
    bananaProject.detectedUseCase ∈ validCategories :=
  C5_use_case_closed_set emptyWorld { okCreateOracle with ucResp := .ok "a banana" }
    "u1" "a banana" bananaProject rfl rfl

/-- Claim C6 (amended): the context-extraction stage is total (it never
raises) and on a model-call failure or a response whose JSON parse fails it
returns the deterministic fallback: the literal short description and the
first 1000 characters of the input text as key points. A parseable JSON
response is returned as-is, even when it misses the required keys. -/
theorem C6_context_fallback (text : String) (resp : Except Unit String)
    (jl : String → Option JVal)
    (hfail : ∀ s, resp = Except.ok s → jl (stripFence s) = none) :
    summarize_and_extract_context_with_gemini text resp jl =
      JVal.jobj [("short_description", JVal.jstr "User-provided project document."),
                 ("key_points", JVal.jstr (pyTake text 1000))] := by
  cases resp with
  | error u => rfl
  | ok s =>
      have h := hfail s rfl
      simp [summarize_and_extract_context_with_gemini, h]

/-- Witness for C6 on a non-JSON model response. -/
theorem C6_context_fallback_witness :
    summarize_and_extract_context_with_gemini "hello" (Except.ok "oops") (fun _ => none) =
      JVal.jobj [("short_description", JVal.jstr "User-provided project document."),
                 ("key_points", JVal.jstr "hello")] :=
  C6_context_fallback "hello" (Except.ok "oops") (fun _ => none) (fun _ _ => rfl)

/-- Claim C6 counterexample: a model response parsing to the JSON object
with no fields — valid JSON missing both required keys — is returned
as-is, not replaced by the deterministic fallback. -/
theorem C6_missing_keys_cex :
    summarize_and_extract_context_with_gemini "hello" (Except.ok "resp")
        (fun _ => some (JVal.jobj [])) = JVal.jobj [] ∧
    JVal.jobj [] ≠
      JVal.jobj [("short_description", JVal.jstr "User-provided project document."),
                 ("key_points", JVal.jstr "hello")] := by
  refine ⟨rfl, ?_⟩
  intro h
  injection h with h2
  exact List.cons_ne_nil _ _ h2.symm

/-- On a session list in which every feedback is a populated JSON object,
the collection loop succeeds with one summary entry per session. -/
theorem collectFeedback_ok (l : List (String × Session))
    (hfb : ∀ sid s, (sid, s) ∈ l → ∃ fs, fs ≠ [] ∧ s.feedback = JVal.jobj fs) :
    ∃ es, collectFeedback l = .ok es ∧ es.length = l.length := by
  induction l with
  | nil => exact ⟨[], rfl, rfl⟩
  | cons head tl ih =>
      obtain ⟨sid, s⟩ := head
      obtain ⟨fs, hne, hfs⟩ := hfb sid s (List.mem_cons_self _ _)
      obtain ⟨es, hes, hlen⟩ := ih (fun sid2 s2 hm => hfb sid2 s2 (List.mem_cons_of_mem _ hm))
      have htr : s.feedback.truthy = true := by
        rw [hfs]; simp [JVal.truthy, hne]
      obtain ⟨v, hv⟩ : ∃ v, feedbackEntry s.feedback = .ok v := by
        rw [hfs]; exact ⟨_, rfl⟩
      refine ⟨v :: es, ?_, by simp [hlen]⟩
      unfold collectFeedback
      rw [htr, hv, hes]
      rfl

/-- Claim C7 (confirmed): for a project with zero practice sessions the
briefing generator issues no model call and returns the base briefing ending
with the first-practice-session note; for a project whose sessions all carry
populated feedback objects, the directive model call is issued and, on its
failure, the base briefing without any directive is returned. -/
theorem C7_adaptive_briefing (p : Project) (dir : Except Unit String)
    (hfb : ∀ sid s, (sid, s) ∈ p.practiceSessions →
      ∃ fs, fs ≠ [] ∧ s.feedback = JVal.jobj fs)
    (hdir : p.practiceSessions ≠ [] → dir = .error ()) :
    generate_agent_briefing (some p) dir =
      if p.practiceSessions.isEmpty
      then { result := .ok (baseBriefing p ++ firstSessionNote), modelCalled := false }
      else { result := .ok (baseBriefing p), modelCalled := true } := by
  rcases hl : p.practiceSessions with _ | ⟨head, tl⟩
  · simp [generate_agent_briefing, hl]
  · have hdir2 : dir = .error () := hdir (by rw [hl]; simp)
    obtain ⟨es, hes, hlen⟩ := collectFeedback_ok p.practiceSessions hfb
    rw [hl] at hes hlen
    rcases es with _ | ⟨e0, etl⟩
    · simp at hlen
    · subst hdir2
      simp [generate_agent_briefing, hl, hes]

/-- Witness for C7 on the sample project with one feedback-bearing session
and a failing directive call. -/
theorem C7_adaptive_briefing_witness :
    generate_agent_briefing (some fbProject) (Except.error ()) =
      if fbProject.practiceSessions.isEmpty
      then { result := .ok (baseBriefing fbProject ++ firstSessionNote), modelCalled := false }
      else { result := .ok (baseBriefing fbProject), modelCalled := true } := by
  apply C7_adaptive_briefing
  · intro sid s hm
    simp [fbProject, sampleProject] at hm
    refine ⟨[("communicationScore", .jint 80), ("contentMasteryScore", .jint 75),
             ("resilienceScore", .jint 60), ("qualitativeImprovements", .jstr "Be concise.")],
      by simp, ?_⟩
    rw [hm.2]
    rfl
  · intro _; rfl

/-- Claim C8 (confirmed): the classifier raises exactly when the model call
itself fails — a returned response string never raises, an invalid one being
replaced by the default — and a classifier failure propagates out of project
creation as a hard failure that writes nothing. -/
theorem C8_classifier_raise_iff (w : World) (o : CreateOracle) (uid s raw : String)
    (hc : 1 ≤ w.credits) (hok : o.extractText = .ok s) (hf : o.ucResp = .error ()) :
    detect_use_case_with_gemini o.ucResp = .error () ∧
    detect_use_case_with_gemini (.ok raw) =
      .ok (if processCategory raw ∈ validCategories then processCategory raw
           else "Job Interview") ∧
    create_project w o uid = (.error .classifierFail, w) := by
  have hc' : ¬ w.credits < 1 := by omega
  refine ⟨by rw [hf]; rfl, ?_, ?_⟩
  · unfold detect_use_case_with_gemini
    by_cases hcat : processCategory raw ∈ validCategories <;> simp [hcat]
  · unfold create_project
    simp [hc', hok, hf, detect_use_case_with_gemini]

/-- Witness for C8 on the sample creation flow with a failing classifier
model call. -/
theorem C8_classifier_raise_iff_witness :
    detect_use_case_with_gemini ({ okCreateOracle with ucResp := .error () }).ucResp
      = .error () ∧
    detect_use_case_with_gemini (.ok "Weird") =
      .ok (if processCategory "Weird" ∈ validCategories
           then processCategory "Weird" else "Job Interview") ∧
    create_project emptyWorld { okCreateOracle with ucResp := .error () } "u1" =
      (.error .classifierFail, emptyWorld) :=
  C8_classifier_raise_iff emptyWorld { okCreateOracle with ucResp := .error () }
    "u1" "briefing text" "Weird" (by norm_num [emptyWorld]) rfl rfl

/-- Claim C9 (amended): on every transcript-analysis failure the diagnostic
write (transcript plus error) is attempted, but it is not guarded: when the
error-log write succeeds, the original error is re-raised alongside the
appended record, and when the error-log write itself fails, the own error of
the write — not the original analysis error — is the one propagated. -/
theorem C9_diag_write_unguarded (w : World) (o : AnalyzeOracle) (t : String)
    (d : ℚ) (e : Err)
    (h : (analyze_transcript_inner w o t d).1 = .error e) :
    analyze_transcript_with_gemini w o t d =
      (if o.errLogSetFails = true
       then (.error .errLogFail, (analyze_transcript_inner w o t d).2)
       else (.error e,
             { (analyze_transcript_inner w o t d).2 with
                errLog := (analyze_transcript_inner w o t d).2.errLog ++
                  [(o.errLogKey, { error := e, transcript := t })] })) := by
  unfold analyze_transcript_with_gemini
  rcases hin : analyze_transcript_inner w o t d with ⟨r, w1⟩
  rw [hin] at h
  cases r with
  | ok v => simp at h
  | error e2 =>
      simp only [Except.error.injEq] at h
      subst h
      by_cases hl : o.errLogSetFails = true <;> simp [hl]

/-- Witness for C9 on a model failure with a succeeding diagnostic write:
the model error itself is re-raised and the record is appended. -/
theorem C9_diag_write_unguarded_witness :
    analyze_transcript_with_gemini sampleWorld
        { okAnalyzeOracle with modelResp := .error () } "x" 7 =
      (.error .modelFail,
       { sampleWorld with errLog := [("k1", { error := .modelFail, transcript := "x" })] }) :=
  C9_diag_write_unguarded sampleWorld { okAnalyzeOracle with modelResp := .error () }
    "x" 7 .modelFail rfl

/-- Claim C9 counterexample: when the analysis fails with a model error and
the diagnostic write also fails, the error propagated to the caller is the
error of the diagnostic write, not the original model error, which it masks. -/
theorem C9_masked_error_cex :
    (analyze_transcript_inner sampleWorld
        { okAnalyzeOracle with modelResp := .error (), errLogSetFails := true } "tr" 5).1 =
      .error .modelFail ∧
    (analyze_transcript_with_gemini sampleWorld
        { okAnalyzeOracle with modelResp := .error (), errLogSetFails := true } "tr" 5).1 =
      .error .errLogFail ∧
    Err.errLogFail ≠ Err.modelFail :=
  ⟨rfl, rfl, by decide⟩

/-- Claim C10 (confirmed): the session-end validation accepts any numeric
durationSeconds including negatives; a negative duration has cost at most 0,
the balance update can only keep or raise the balance, and concretely at
duration -61 the cost is -3 so the sample balance rises from 30 to
33 — a sufficiently negative duration increases the credits of the user. -/
theorem C10_negative_duration_accepted (d : ℚ) (t : String) (c : Int)
    (hd : d < 0) (ht : t ≠ "") :
    end_session_request_valid (some d) t = true ∧
    analysisCost d ≤ 0 ∧
    c ≤ max 0 (c - analysisCost d) ∧
    analysisCost (-61) = -3 ∧
    (analyze_transcript_with_gemini sampleWorld okAnalyzeOracle "t" (-61)).1 =
      .ok { cost := -3, remaining := 33, sessionId := "s1" } ∧
    sampleWorld.credits <
      (analyze_transcript_with_gemini sampleWorld okAnalyzeOracle "t" (-61)).2.credits := by
  have hcost := analysisCost_nonpos d hd
  refine ⟨?_, hcost, ?_, analysisCost_neg_sixtyone, ?_, ?_⟩
  · simp [end_session_request_valid, ht]
  · have hstep : c ≤ c - analysisCost d := by omega
    exact le_trans hstep (le_max_right _ _)
  · unfold analyze_transcript_with_gemini analyze_transcript_inner
    norm_num [sampleWorld, sampleProject, okAnalyzeOracle, analysisCost_neg_sixtyone]
  · unfold analyze_transcript_with_gemini analyze_transcript_inner
    norm_num [sampleWorld, sampleProject, okAnalyzeOracle, analysisCost_neg_sixtyone]

/-- Witness for C10 at duration -1 with a non-empty transcript. -/
theorem C10_negative_duration_accepted_witness :
    end_session_request_valid (some (-1 : ℚ)) "x" = true ∧
    analysisCost (-1) ≤ 0 ∧
    (0 : Int) ≤ max 0 (0 - analysisCost (-1)) ∧
    analysisCost (-61) = -3 ∧
    (analyze_transcript_with_gemini sampleWorld okAnalyzeOracle "t" (-61)).1 =
      .ok { cost := -3, remaining := 33, sessionId := "s1" } ∧
    sampleWorld.credits <
      (analyze_transcript_with_gemini sampleWorld okAnalyzeOracle "t" (-61)).2.credits :=
  C10_negative_duration_accepted (-1) "x" 0 (by norm_num) (by decide)

end Sozo
